import Mathlib

/-!
# Verification of the `wanna_play` poll bot (`src/bot.py`)

A shallow embedding of the bot's state and handlers.

The Python module keeps three process-wide mutable values:
* `poll_answers  : defaultdict(poll_id ↦ defaultdict(option_index ↦ [user_id]))`
* `user_display_names : dict(user_id ↦ str)`
* `active_poll_info : {"message_id": None, "poll_id": None}`

Python dicts preserve insertion order and have unique keys; we model them as
association lists with a `setEntry` that replaces in place or appends, and a
`getEntry?` that finds the first matching key.  The `defaultdict` subscript
(`m[k]`, which inserts a default value when `k` is absent) is modelled by
`ddGet`, returning both the value and the possibly-grown map.

External effects (Telegram API calls, HTTP, logging) are modelled by an
explicit `Action` trace; the outcomes of fallible external calls are inputs
(`StopEnv`, `OpenEnv`, `WeaEnv`): `none`/`false` means the call raised.
-/

namespace WannaPlay

abbrev UserId := Nat
abbrev PollId := String

/-- First entry with the given key, like Python `d[k]` / `d.get(k)` on a dict
whose keys are unique. -/
def getEntry? [DecidableEq α] : List (α × β) → α → Option β
  | [], _ => none
  | (k', v) :: rest, k => if k' = k then some v else getEntry? rest k

/-- Python `d[k] = v`: replace the value of an existing key in place,
otherwise append at the end (dicts preserve insertion order). -/
def setEntry [DecidableEq α] : List (α × β) → α → β → List (α × β)
  | [], k, v => [(k, v)]
  | (k', v') :: rest, k, v =>
    if k' = k then (k, v) :: rest else (k', v') :: setEntry rest k v

/-- Python `k in d`. -/
def containsKey [DecidableEq α] (m : List (α × β)) (k : α) : Bool :=
  (getEntry? m k).isSome

/-- Python `del d[k]` (on dicts the key is unique; removing every entry with
that key coincides on every state a dict can have). -/
def delEntry [DecidableEq α] : List (α × β) → α → List (α × β)
  | [], _ => []
  | (k', v) :: rest, k =>
    if k' = k then delEntry rest k else (k', v) :: delEntry rest k

/-- `defaultdict` subscript `m[k]`: return the stored value, inserting the
default `d` first when the key is absent. -/
def ddGet [DecidableEq α] (m : List (α × β)) (k : α) (d : β) : β × List (α × β) :=
  match getEntry? m k with
  | some v => (v, m)
  | none => (d, m ++ [(k, d)])

/-! ## The bot's state (`src/bot.py`, lines 19-22) -/

/-- `active_poll_info = {"message_id": None, "poll_id": None}`. -/
structure ActivePollInfo where
  message_id : Option Nat
  poll_id : Option PollId
  deriving DecidableEq, Repr

/-- The three module-level stores. The inner tally maps option index to the
ordered list of user ids who chose it. -/
structure BotState where
  poll_answers : List (PollId × List (Nat × List UserId))
  user_display_names : List (UserId × String)
  active_poll_info : ActivePollInfo
  deriving DecidableEq, Repr

/-- The state at process start. -/
def initState : BotState :=
  { poll_answers := [], user_display_names := [],
    active_poll_info := { message_id := none, poll_id := none } }

def GROUP_CHAT_ID : String := ""

def POLL_OPTIONS : List String := ["🏀 打", "❌ nope"]

/-- Externally visible effects, in program order. -/
inductive Action where
  | sendPoll (chatId question : String) (options : List String)
  | stopPoll (chatId : String) (messageId : Nat)
  | sendMessage (chatId text : String)
  | replyPhoto (content caption : String)
  | replyText (text : String)
  | logWarning (msg : String)
  | logError (msg : String)
  | logInfo (msg : String)
  deriving DecidableEq, Repr

/-! ## Vote recorder (`handle_poll_answer`, lines 65-83) -/

/-- One Telegram poll-answer update: `update.poll_answer`. -/
structure PollAnswerEvent where
  poll_id : PollId
  user_id : UserId
  username : Option String
  full_name : String
  option_ids : List Nat
  deriving DecidableEq, Repr

/-- `f"@{user.username}" if user.username else user.full_name` (an empty
username string is falsy in Python). -/
def displayName (e : PollAnswerEvent) : String :=
  match e.username with
  | some u => if u = "" then e.full_name else "@" ++ u
  | none => e.full_name

/-- The update `handle_poll_answer` applies to the poll's inner tally dict:
remove the user's first occurrence from every option list (`list.remove`),
then append the user to each chosen option's list (the inner `defaultdict`
subscript inserts an empty list for a fresh option index). -/
def handleInner (inner : List (Nat × List UserId)) (e : PollAnswerEvent) :
    List (Nat × List UserId) :=
  e.option_ids.foldl
    (fun m i => setEntry m i (((getEntry? m i).getD []) ++ [e.user_id]))
    (inner.map (fun oe => (oe.1, oe.2.erase e.user_id)))

/-- The body of `handle_poll_answer`: refresh the display name, then apply
`handleInner` to this poll's inner dict.  Subscripting
`poll_answers[poll_id]` inserts an empty inner dict when absent. -/
def handle_poll_answer (s : BotState) (e : PollAnswerEvent) : BotState :=
  let got := ddGet s.poll_answers e.poll_id []
  { poll_answers := setEntry got.2 e.poll_id (handleInner got.1 e),
    user_display_names := setEntry s.user_display_names e.user_id (displayName e),
    active_poll_info := s.active_poll_info }

/-- Process a sequence of poll-answer updates in arrival order. -/
def runEvents (s : BotState) (es : List PollAnswerEvent) : BotState :=
  es.foldl handle_poll_answer s

/-- The option list stored for option `i` of poll `p` (the empty list when
either level has no entry). -/
def optList (s : BotState) (p : PollId) (i : Nat) : List UserId :=
  (getEntry? ((getEntry? s.poll_answers p).getD []) i).getD []

/-- No option list of any poll mentions a user twice.  This holds for every
reachable state (`handle_poll_answer` erases before appending) and is what
makes a single `list.remove` per list sufficient. -/
def Dedup (s : BotState) : Prop :=
  ∀ pe ∈ s.poll_answers, ∀ oe ∈ pe.2, List.Nodup oe.2

instance (s : BotState) : Decidable (Dedup s) := by
  unfold Dedup; infer_instance

/-- The `option_ids` of the most recent event of user `u` for poll `p`, if
any. -/
def lastChoice : List PollAnswerEvent → PollId → UserId → Option (List Nat)
  | [], _, _ => none
  | e :: es, p, u =>
    match lastChoice es p u with
    | some c => some c
    | none => if e.poll_id = p ∧ e.user_id = u then some e.option_ids else none

/-! ## Poll opening (`start_poll_by_bot`, lines 42-62) -/

/-- Outcomes of the external calls made while opening: `send_message_ok` is
whether the duplicate-poll notification succeeds, `send_poll_result` the
message id and poll id returned by `send_poll` (`none` = the call raised and
the exception propagates out of the handler, unhandled). -/
structure OpenEnv where
  send_message_ok : Bool
  send_poll_result : Option (Nat × PollId)
  deriving DecidableEq, Repr

def dupWarnMsg : String := "⚠️ 已有一個投票進行中，跳過新投票"

def dupNotifyMsg : String := "⚠️ 已有一個投票進行中，請先結束再發起新投票"

def schedSkipMsg : String := "排程模式下跳過發送訊息"

/-- The body of `start_poll_by_bot`: when `active_poll_info["poll_id"] is not
None`, log a warning, try a best-effort notification (its failure is caught
and logged) and return without touching any state; otherwise send the poll
and record the returned ids. -/
def start_poll_by_bot (s : BotState) (env : OpenEnv) : BotState × List Action :=
  match s.active_poll_info.poll_id with
  | some _ =>
    (s, [Action.logWarning dupWarnMsg, Action.sendMessage GROUP_CHAT_ID dupNotifyMsg]
        ++ (if env.send_message_ok then [] else [Action.logInfo schedSkipMsg]))
  | none =>
    match env.send_poll_result with
    | none => (s, [Action.sendPoll GROUP_CHAT_ID "wanna play?" POLL_OPTIONS])
    | some (mid, pid) =>
      ({ s with active_poll_info := { message_id := some mid, poll_id := some pid } },
       [Action.sendPoll GROUP_CHAT_ID "wanna play?" POLL_OPTIONS,
        Action.logInfo "✅ 發起投票"])

/-! ## Poll closing (`stop_poll_by_bot`, lines 86-114) -/

/-- Outcomes of the external calls made while closing: `stop_poll_result` is
what `bot.stop_poll` returns — the poll's question and option texts — with
`none` meaning the call raised; `send_message_ok` is whether sending the
summary succeeds. -/
structure StopEnv where
  stop_poll_result : Option (String × List String)
  send_message_ok : Bool
  deriving DecidableEq, Repr

def noActiveMsg : String := "⚠️ 無投票進行中，跳過結束"

def closeFailMsg : String := "❌ 結束投票失敗"

/-- Python truthiness of an optional string (`None` and `""` are falsy). -/
def optStrTruthy : Option String → Bool
  | none => false
  | some s => s ≠ ""

/-- Python truthiness of an optional message id (`None` and `0` are falsy). -/
def optNatTruthy : Option Nat → Bool
  | none => false
  | some n => n ≠ 0

/-- `[user_display_names.get(uid, "未知") for uid in user_ids]`. -/
def renderNames (user_ids : List UserId) (names : List (UserId × String)) :
    List String :=
  user_ids.map (fun uid => (getEntry? names uid).getD "未知")

/-- `'、'.join(names)`. -/
def joinNames : List String → String
  | [] => ""
  | [n] => n
  | n :: rest => n ++ "、" ++ joinNames rest

/-- One summary line:
`f"{option.text}（{len(user_ids)}人）：{'、'.join(names) or '無'}\n"`
(an empty join result is falsy, giving the `無` placeholder). -/
def renderLine (optionText : String) (user_ids : List UserId)
    (names : List (UserId × String)) : String :=
  let joined := joinNames (renderNames user_ids names)
  optionText ++ "（" ++ toString user_ids.length ++ "人）："
    ++ (if joined = "" then "無" else joined) ++ "\n"

/-- The whole summary text accumulated by the `for i, option in
enumerate(result.options)` loop, reading each option's voters with
`poll_answers[poll_id].get(i, [])`. -/
def buildSummary (question : String) (opts : List String)
    (inner : List (Nat × List UserId)) (names : List (UserId × String)) : String :=
  opts.enum.foldl
    (fun acc io => acc ++ renderLine io.2 ((getEntry? inner io.1).getD []) names)
    ("📊 投票結果：「" ++ question ++ "」\n\n")

/-- The body of `stop_poll_by_bot`.  If either stored id is falsy, warn and
return.  Otherwise call `stop_poll` (a raise is caught: state unchanged),
build the summary — whose first subscript `poll_answers[poll_id]` inserts an
empty entry when the poll has no votes and at least one option line is
rendered — send it, and on success `del` the tally entry and clear both
`active_poll_info` fields; any raise after the first mutation leaves the
partial mutation behind. -/
def stop_poll_by_bot (s : BotState) (env : StopEnv) : BotState × List Action :=
  if !(optStrTruthy s.active_poll_info.poll_id)
      || !(optNatTruthy s.active_poll_info.message_id) then
    (s, [Action.logWarning noActiveMsg])
  else
    let pid := s.active_poll_info.poll_id.getD ""
    let mid := s.active_poll_info.message_id.getD 0
    match env.stop_poll_result with
    | none => (s, [Action.stopPoll GROUP_CHAT_ID mid, Action.logError closeFailMsg])
    | some (question, opts) =>
      let pa₁ := if opts.isEmpty then s.poll_answers
                 else (ddGet s.poll_answers pid []).2
      let summary :=
        buildSummary question opts ((getEntry? s.poll_answers pid).getD [])
          s.user_display_names
      if env.send_message_ok then
        if containsKey pa₁ pid then
          ({ poll_answers := delEntry pa₁ pid,
             user_display_names := s.user_display_names,
             active_poll_info := { message_id := none, poll_id := none } },
           [Action.stopPoll GROUP_CHAT_ID mid,
            Action.sendMessage GROUP_CHAT_ID summary])
        else
          ({ s with poll_answers := pa₁ },
           [Action.stopPoll GROUP_CHAT_ID mid,
            Action.sendMessage GROUP_CHAT_ID summary,
            Action.logError closeFailMsg])
      else
        ({ s with poll_answers := pa₁ },
         [Action.stopPoll GROUP_CHAT_ID mid,
          Action.sendMessage GROUP_CHAT_ID summary,
          Action.logError closeFailMsg])

/-! ## Weather image (`wea_handler`, lines 30-39) -/

/-- Outcomes of the external calls in `wea_handler`: `fetch` is the result of
`requests.get` (`none` = it raised; otherwise status code and body), and
`reply_ok` is whether the reply issued inside the `try` block succeeds (its
raise is caught by the same `except`). -/
structure WeaEnv where
  fetch : Option (Nat × String)
  reply_ok : Bool
  deriving DecidableEq, Repr

def radarCaption : String := "🌧️ 台灣雷達回波圖"

def loadFailedMsg : String := "⚠️ 圖片載入失敗，請稍後再試。"

def genericErrorMsg : String := "⚠️ 發生錯誤，請稍後再試。"

def fetchErrorLog : String := "錯誤"

/-- The body of `wea_handler`: GET the radar image; on HTTP 200 reply with the
photo, on any other status reply with the load-failed text; any exception in
the `try` block is logged and answered with the generic error text. -/
def wea_handler (env : WeaEnv) : List Action :=
  match env.fetch with
  | none => [Action.logError fetchErrorLog, Action.replyText genericErrorMsg]
  | some (code, content) =>
    if code = 200 then
      if env.reply_ok then [Action.replyPhoto content radarCaption]
      else [Action.replyPhoto content radarCaption,
            Action.logError fetchErrorLog, Action.replyText genericErrorMsg]
    else
      if env.reply_ok then [Action.replyText loadFailedMsg]
      else [Action.replyText loadFailedMsg,
            Action.logError fetchErrorLog, Action.replyText genericErrorMsg]

/-- The summary text produced when the poll closes with zero recorded votes
(question and options as created by `start_poll_by_bot`). -/
def zeroVotesSummary : String :=
  "📊 投票結果：「wanna play?」\n\n🏀 打（0人）：無\n❌ nope（0人）：無\n"

/-- A concrete state with an active poll ("p1", message 5) and zero recorded
votes. -/
def zeroVoteState : BotState :=
  ⟨[], [], ⟨some 5, some "p1"⟩⟩

/-- A concrete state with an active poll ("p1", message 5) and one recorded
vote: user 7 chose option 0 and is cached as "@a". -/
def oneVoteState : BotState :=
  ⟨[("p1", [(0, [7])])], [(7, "@a")], ⟨some 5, some "p1"⟩⟩

/-- A close environment where both external calls succeed. -/
def okStopEnv : StopEnv :=
  ⟨some ("wanna play?", POLL_OPTIONS), true⟩

/-- A close environment where stopping succeeds but sending the summary
raises. -/
def failSendStopEnv : StopEnv :=
  ⟨some ("wanna play?", POLL_OPTIONS), false⟩

/-! ## Association-list lemmas -/

@[simp] theorem getEntry?_nil [DecidableEq α] (k : α) :
    getEntry? ([] : List (α × β)) k = none := rfl

theorem getEntry?_setEntry [DecidableEq α] (m : List (α × β)) (k k' : α) (v : β) :
    getEntry? (setEntry m k v) k' = if k' = k then some v else getEntry? m k' := by
  induction m with
  | nil =>
    by_cases h : k' = k
    · subst h; simp [setEntry, getEntry?]
    · simp [setEntry, getEntry?, h, Ne.symm h]
  | cons kv rest ih =>
    obtain ⟨k₀, v₀⟩ := kv
    by_cases h0 : k₀ = k
    · subst h0
      by_cases h : k' = k₀
      · subst h; simp [setEntry, getEntry?]
      · simp [setEntry, getEntry?, h, Ne.symm h]
    · by_cases h : k' = k₀
      · subst h
        simp [setEntry, getEntry?, h0]
      · simp [setEntry, getEntry?, h0, Ne.symm h, h, ih]

theorem getEntry?_append_single [DecidableEq α] (m : List (α × β)) (k k' : α) (d : β) :
    getEntry? (m ++ [(k, d)]) k' =
      if (getEntry? m k').isSome then getEntry? m k'
      else if k' = k then some d else none := by
  induction m with
  | nil =>
    by_cases h : k' = k
    · subst h; simp [getEntry?]
    · simp [getEntry?, h, Ne.symm h]
  | cons kv rest ih =>
    obtain ⟨k₀, v₀⟩ := kv
    by_cases h : k₀ = k' <;> simp [getEntry?, h, ih]

theorem getEntry?_ddGet [DecidableEq α] (m : List (α × β)) (k k' : α) (d : β) :
    getEntry? (ddGet m k d).2 k' =
      if k' = k then some ((getEntry? m k).getD d) else getEntry? m k' := by
  unfold ddGet
  cases hm : getEntry? m k with
  | some v =>
    by_cases h : k' = k <;> simp [h, hm]
  | none =>
    rw [getEntry?_append_single]
    by_cases h : k' = k
    · subst h; simp [hm]
    · by_cases h2 : (getEntry? m k').isSome
      · simp [h, h2]
      · simp [h, h2, Option.not_isSome_iff_eq_none.mp h2]

theorem ddGet_fst [DecidableEq α] (m : List (α × β)) (k : α) (d : β) :
    (ddGet m k d).1 = (getEntry? m k).getD d := by
  unfold ddGet
  cases hm : getEntry? m k <;> simp [hm]

theorem getEntry?_map_snd [DecidableEq α] (m : List (α × β)) (f : β → γ) (k : α) :
    getEntry? (m.map (fun kv => (kv.1, f kv.2))) k = (getEntry? m k).map f := by
  induction m with
  | nil => simp
  | cons kv rest ih =>
    obtain ⟨k₀, v₀⟩ := kv
    by_cases h : k₀ = k <;> simp [getEntry?, h, ih]

theorem getEntry?_delEntry [DecidableEq α] (m : List (α × β)) (k k' : α) :
    getEntry? (delEntry m k) k' = if k' = k then none else getEntry? m k' := by
  induction m with
  | nil => simp [delEntry, getEntry?]
  | cons kv rest ih =>
    obtain ⟨k₀, v₀⟩ := kv
    by_cases h0 : k₀ = k
    · subst h0
      by_cases h : k' = k₀
      · subst h; simpa [delEntry] using ih
      · simp [delEntry, getEntry?, h, Ne.symm h, ih]
    · by_cases h : k' = k₀
      · subst h
        simp [delEntry, getEntry?, h0]
      · simp [delEntry, getEntry?, h0, Ne.symm h, h, ih]

theorem getEntry?_mem [DecidableEq α] {m : List (α × β)} {k : α} {v : β}
    (h : getEntry? m k = some v) : (k, v) ∈ m := by
  induction m with
  | nil => simp [getEntry?] at h
  | cons kv rest ih =>
    obtain ⟨k₀, v₀⟩ := kv
    by_cases h0 : k₀ = k
    · subst h0
      simp [getEntry?] at h
      simp [h]
    · simp [getEntry?, h0] at h
      exact List.mem_cons_of_mem _ (ih h)

theorem mem_setEntry [DecidableEq α] {m : List (α × β)} {k : α} {v : β} {x : α × β}
    (h : x ∈ setEntry m k v) : x = (k, v) ∨ x ∈ m := by
  induction m with
  | nil => simpa [setEntry] using h
  | cons kv rest ih =>
    obtain ⟨k₀, v₀⟩ := kv
    by_cases h0 : k₀ = k
    · subst h0
      rcases (by simpa [setEntry] using h : x = (k₀, v) ∨ x ∈ rest) with h1 | h1
      · exact Or.inl h1
      · exact Or.inr (List.mem_cons_of_mem _ h1)
    · rcases (by simpa [setEntry, h0] using h : x = (k₀, v₀) ∨ x ∈ setEntry rest k v) with h1 | h1
      · exact Or.inr (by simp [h1])
      · rcases ih h1 with h2 | h2
        · exact Or.inl h2
        · exact Or.inr (List.mem_cons_of_mem _ h2)

theorem optStrTruthy_eq_true {o : Option String} {x : String}
    (h : o = some x) (h0 : x ≠ "") : optStrTruthy o = true := by
  subst h; simp [optStrTruthy, h0]

theorem optNatTruthy_eq_true {o : Option Nat} {n : Nat}
    (h : o = some n) (h0 : n ≠ 0) : optNatTruthy o = true := by
  subst h; simp [optNatTruthy, h0]

/-! ## Claim theorems -/

/-- C4: when an active poll exists, `start_poll_by_bot` performs no
poll-creation request and returns with the entire state (active poll ids,
tally, display-name cache) unchanged; it logs a warning and attempts a
best-effort user notification whose own failure is caught and merely
logged. -/
theorem start_poll_guard_noop (s : BotState) (env : OpenEnv) (pid : PollId)
    (hp : s.active_poll_info.poll_id = some pid) :
    (start_poll_by_bot s env).1 = s ∧
    (∀ c q o, Action.sendPoll c q o ∉ (start_poll_by_bot s env).2) ∧
    Action.logWarning dupWarnMsg ∈ (start_poll_by_bot s env).2 ∧
    Action.sendMessage GROUP_CHAT_ID dupNotifyMsg ∈ (start_poll_by_bot s env).2 ∧
    (env.send_message_ok = false →
      Action.logInfo schedSkipMsg ∈ (start_poll_by_bot s env).2) := by
  cases hok : env.send_message_ok <;> simp [start_poll_by_bot, hp, hok]

/-- Witness for C4 at a concrete state with an active poll. -/
theorem start_poll_guard_noop_witness :
    (start_poll_by_bot
        { poll_answers := [], user_display_names := [],
          active_poll_info := { message_id := some 5, poll_id := some "p1" } }
        { send_message_ok := false, send_poll_result := none }).1
      = { poll_answers := [], user_display_names := [],
          active_poll_info := { message_id := some 5, poll_id := some "p1" } } ∧
    (∀ c q o, Action.sendPoll c q o ∉
      (start_poll_by_bot
        { poll_answers := [], user_display_names := [],
          active_poll_info := { message_id := some 5, poll_id := some "p1" } }
        { send_message_ok := false, send_poll_result := none }).2) ∧
    Action.logWarning dupWarnMsg ∈
      (start_poll_by_bot
        { poll_answers := [], user_display_names := [],
          active_poll_info := { message_id := some 5, poll_id := some "p1" } }
        { send_message_ok := false, send_poll_result := none }).2 ∧
    Action.sendMessage GROUP_CHAT_ID dupNotifyMsg ∈
      (start_poll_by_bot
        { poll_answers := [], user_display_names := [],
          active_poll_info := { message_id := some 5, poll_id := some "p1" } }
        { send_message_ok := false, send_poll_result := none }).2 ∧
    (({ send_message_ok := false, send_poll_result := none } : OpenEnv).send_message_ok = false →
      Action.logInfo schedSkipMsg ∈
        (start_poll_by_bot
          { poll_answers := [], user_display_names := [],
            active_poll_info := { message_id := some 5, poll_id := some "p1" } }
          { send_message_ok := false, send_poll_result := none }).2) :=
  start_poll_guard_noop _ _ "p1" rfl

/-- C5: when no active poll is stored (both fields `none`),
`stop_poll_by_bot` makes no external call and returns the state unchanged,
emitting only a warning log. -/
theorem stop_poll_no_active_noop (s : BotState) (env : StopEnv)
    (hp : s.active_poll_info.poll_id = none)
    (hm : s.active_poll_info.message_id = none) :
    stop_poll_by_bot s env = (s, [Action.logWarning noActiveMsg]) := by
  simp [stop_poll_by_bot, hp, optStrTruthy]

/-- Witness for C5 at a concrete state with no active poll. -/
theorem stop_poll_no_active_noop_witness :
    stop_poll_by_bot
        { poll_answers := [("old", [(0, [3])])], user_display_names := [(3, "@x")],
          active_poll_info := { message_id := none, poll_id := none } }
        { stop_poll_result := some ("q", ["a"]), send_message_ok := true }
      = ({ poll_answers := [("old", [(0, [3])])], user_display_names := [(3, "@x")],
           active_poll_info := { message_id := none, poll_id := none } },
         [Action.logWarning noActiveMsg]) :=
  stop_poll_no_active_noop _ _ rfl rfl

/-- C7: in `wea_handler`, an HTTP status other than 200 yields the
load-failed reply and no photo, and an exception from the GET is caught,
logged, and answered with the generic error reply. -/
theorem wea_handler_error_paths (env : WeaEnv) :
    (∀ code content, env.fetch = some (code, content) → code ≠ 200 →
      Action.replyText loadFailedMsg ∈ wea_handler env ∧
      ∀ p c, Action.replyPhoto p c ∉ wea_handler env) ∧
    (env.fetch = none →
      wea_handler env
        = [Action.logError fetchErrorLog, Action.replyText genericErrorMsg]) := by
  constructor
  · intro code content hf hcode
    cases hr : env.reply_ok <;> simp [wea_handler, hf, hcode, hr]
  · intro hf
    simp [wea_handler, hf]

/-- Witness for C7 at a concrete non-200 fetch. -/
theorem wea_handler_error_paths_witness :
    Action.replyText loadFailedMsg
        ∈ wea_handler { fetch := some (404, ""), reply_ok := true } ∧
    ∀ p c, Action.replyPhoto p c
        ∉ wea_handler { fetch := some (404, ""), reply_ok := true } :=
  (wea_handler_error_paths { fetch := some (404, ""), reply_ok := true }).1
    404 "" rfl (by decide)

/-- C8: the vote recorder never consults the active-poll guard: any incoming
event creates or updates a tally entry under the event's own poll id, the
resulting tally does not depend on `active_poll_info`, and the recorder
leaves `active_poll_info` untouched. -/
theorem handle_poll_answer_no_active_check (s : BotState) (e : PollAnswerEvent)
    (api : ActivePollInfo) :
    containsKey (handle_poll_answer s e).poll_answers e.poll_id = true ∧
    (handle_poll_answer { s with active_poll_info := api } e).poll_answers
      = (handle_poll_answer s e).poll_answers ∧
    (handle_poll_answer s e).active_poll_info = s.active_poll_info := by
  refine ⟨?_, rfl, rfl⟩
  simp [handle_poll_answer, containsKey, getEntry?_setEntry]

/-- C2 is false as stated: with an active poll that received zero votes,
a failing summary send leaves the tally map with a freshly created (empty)
entry for the poll id — the `defaultdict` subscript in the summary loop
added it — so the state is not exactly what it was when `close` began. -/
theorem stop_poll_failure_adds_entry_cex :
    (stop_poll_by_bot zeroVoteState failSendStopEnv).1 ≠ zeroVoteState := by
  decide

/-- C2 (amended): with an active poll, a raise from the stop-poll call is
caught and leaves the whole state unchanged; a raise from the summary send is
caught and leaves `active_poll_info`, the display-name cache and every
existing tally entry unchanged, except that when the poll id had no tally
entry (zero votes) an empty entry for it has been created as a side effect
of building the summary. -/
theorem stop_poll_failure_preserves_state (s : BotState) (env : StopEnv)
    (pid : PollId) (mid : Nat)
    (hp : s.active_poll_info.poll_id = some pid) (hp0 : pid ≠ "")
    (hm : s.active_poll_info.message_id = some mid) (hm0 : mid ≠ 0) :
    (env.stop_poll_result = none → (stop_poll_by_bot s env).1 = s) ∧
    (∀ q opts, env.stop_poll_result = some (q, opts) →
      env.send_message_ok = false →
      (stop_poll_by_bot s env).1.active_poll_info = s.active_poll_info ∧
      (stop_poll_by_bot s env).1.user_display_names = s.user_display_names ∧
      ∀ p, getEntry? (stop_poll_by_bot s env).1.poll_answers p
              = getEntry? s.poll_answers p ∨
           (p = pid ∧ getEntry? s.poll_answers p = none ∧
            getEntry? (stop_poll_by_bot s env).1.poll_answers p = some [])) := by
  have h1 := optStrTruthy_eq_true hp hp0
  have h2 := optNatTruthy_eq_true hm hm0
  have hT1 : optStrTruthy (some pid) = true := by simp [optStrTruthy, hp0]
  have hT2 : optNatTruthy (some mid) = true := by simp [optNatTruthy, hm0]
  constructor
  · intro hr
    simp [stop_poll_by_bot, h1, h2, hr]
  · intro q opts hr hok
    refine ⟨?_, ?_, ?_⟩
    · simp [stop_poll_by_bot, h1, h2, hr, hok]
    · simp [stop_poll_by_bot, h1, h2, hr, hok]
    · intro p
      cases hemp : opts.isEmpty with
      | true =>
        left
        simp [stop_poll_by_bot, h1, h2, hr, hok, hemp]
      | false =>
        by_cases hpp : p = pid
        · subst hpp
          cases hsv : getEntry? s.poll_answers p with
          | none =>
            right
            refine ⟨rfl, rfl, ?_⟩
            simp [stop_poll_by_bot, hp, hm, hT1, hT2, hr, hok, hemp,
                  getEntry?_ddGet, hsv]
          | some inner =>
            left
            simp [stop_poll_by_bot, hp, hm, hT1, hT2, hr, hok, hemp,
                  getEntry?_ddGet, hsv]
        · left
          simp [stop_poll_by_bot, hp, hm, hT1, hT2, hr, hok, hemp,
                getEntry?_ddGet, hpp]

/-- Witness for C2 (amended) at a concrete active-poll state. -/
theorem stop_poll_failure_preserves_state_witness :
    (failSendStopEnv.stop_poll_result = none →
      (stop_poll_by_bot oneVoteState failSendStopEnv).1 = oneVoteState) ∧
    (∀ q opts, failSendStopEnv.stop_poll_result = some (q, opts) →
      failSendStopEnv.send_message_ok = false →
      (stop_poll_by_bot oneVoteState failSendStopEnv).1.active_poll_info
          = oneVoteState.active_poll_info ∧
      (stop_poll_by_bot oneVoteState failSendStopEnv).1.user_display_names
          = oneVoteState.user_display_names ∧
      ∀ p, getEntry? (stop_poll_by_bot oneVoteState failSendStopEnv).1.poll_answers p
              = getEntry? oneVoteState.poll_answers p ∨
           (p = "p1" ∧ getEntry? oneVoteState.poll_answers p = none ∧
            getEntry? (stop_poll_by_bot oneVoteState failSendStopEnv).1.poll_answers p
              = some [])) :=
  stop_poll_failure_preserves_state oneVoteState failSendStopEnv "p1" 5 rfl
    (by decide) rfl (by decide)

/-- C3: with an active poll, when the stop-poll call returns normally (for a
real poll: a nonempty option list) and the summary send succeeds, the close
removes the poll's tally entry and clears both `active_poll_info` fields,
whatever the number of recorded votes. -/
theorem stop_poll_success_clears (s : BotState) (env : StopEnv)
    (pid : PollId) (mid : Nat) (q : String) (opts : List String)
    (hp : s.active_poll_info.poll_id = some pid) (hp0 : pid ≠ "")
    (hm : s.active_poll_info.message_id = some mid) (hm0 : mid ≠ 0)
    (hr : env.stop_poll_result = some (q, opts)) (hopts : opts ≠ [])
    (hok : env.send_message_ok = true) :
    getEntry? (stop_poll_by_bot s env).1.poll_answers pid = none ∧
    (stop_poll_by_bot s env).1.active_poll_info.poll_id = none ∧
    (stop_poll_by_bot s env).1.active_poll_info.message_id = none := by
  have hT1 : optStrTruthy (some pid) = true := by simp [optStrTruthy, hp0]
  have hT2 : optNatTruthy (some mid) = true := by simp [optNatTruthy, hm0]
  have hemp : opts.isEmpty = false := by
    cases opts with
    | nil => exact absurd rfl hopts
    | cons a l => rfl
  have hck : containsKey (ddGet s.poll_answers pid []).2 pid = true := by
    simp [containsKey, getEntry?_ddGet]
  simp [stop_poll_by_bot, hp, hm, hT1, hT2, hr, hok, hemp, hck,
        getEntry?_delEntry]

/-- Witness for C3 at a concrete one-vote state. -/
theorem stop_poll_success_clears_witness :
    getEntry? (stop_poll_by_bot oneVoteState okStopEnv).1.poll_answers "p1" = none ∧
    (stop_poll_by_bot oneVoteState okStopEnv).1.active_poll_info.poll_id = none ∧
    (stop_poll_by_bot oneVoteState okStopEnv).1.active_poll_info.message_id = none :=
  stop_poll_success_clears oneVoteState okStopEnv "p1" 5 "wanna play?" POLL_OPTIONS
    rfl (by decide) rfl (by decide) rfl (by decide) rfl

/-- The summary built for a poll with no recorded votes, for any
display-name cache. -/
theorem buildSummary_no_votes (names : List (UserId × String)) :
    buildSummary "wanna play?" POLL_OPTIONS [] names = zeroVotesSummary := rfl

/-- C6: closing an active poll that received zero votes sends a summary that
lists both options, each with a count of 0 voters and the placeholder 無 in
place of a name list. -/
theorem stop_poll_zero_votes_summary (s : BotState) (env : StopEnv)
    (pid : PollId) (mid : Nat)
    (hp : s.active_poll_info.poll_id = some pid) (hp0 : pid ≠ "")
    (hm : s.active_poll_info.message_id = some mid) (hm0 : mid ≠ 0)
    (hr : env.stop_poll_result = some ("wanna play?", POLL_OPTIONS))
    (hv : getEntry? s.poll_answers pid = none) :
    Action.sendMessage GROUP_CHAT_ID zeroVotesSummary
      ∈ (stop_poll_by_bot s env).2 := by
  have hT1 : optStrTruthy (some pid) = true := by simp [optStrTruthy, hp0]
  have hT2 : optNatTruthy (some mid) = true := by simp [optNatTruthy, hm0]
  have hemp : POLL_OPTIONS.isEmpty = false := rfl
  have hck : containsKey (ddGet s.poll_answers pid []).2 pid = true := by
    simp [containsKey, getEntry?_ddGet]
  have hsum := buildSummary_no_votes s.user_display_names
  cases hok : env.send_message_ok <;>
    simp [stop_poll_by_bot, hp, hm, hT1, hT2, hr, hok, hemp, hck, hv, hsum]

/-- Witness for C6 at a concrete zero-vote state. -/
theorem stop_poll_zero_votes_summary_witness :
    Action.sendMessage GROUP_CHAT_ID zeroVotesSummary
      ∈ (stop_poll_by_bot zeroVoteState okStopEnv).2 :=
  stop_poll_zero_votes_summary zeroVoteState okStopEnv "p1" 5 rfl (by decide)
    rfl (by decide) rfl rfl

/-- C10: a voter with no display-name cache entry is still listed and
counted in a summary line: the rendered name list has one name per recorded
voter, the voter's position shows the placeholder 未知, and the line's count
is the full voter-list length. -/
theorem summary_unknown_voter (optionText : String) (user_ids : List UserId)
    (names : List (UserId × String)) (uid : UserId)
    (hn : getEntry? names uid = none) (hmem : uid ∈ user_ids) :
    (renderNames user_ids names).length = user_ids.length ∧
    "未知" ∈ renderNames user_ids names ∧
    (∀ k : Nat, user_ids[k]? = some uid →
      (renderNames user_ids names)[k]? = some "未知") ∧
    renderLine optionText user_ids names
      = optionText ++ "（" ++ toString user_ids.length ++ "人）："
        ++ (if joinNames (renderNames user_ids names) = "" then "無"
            else joinNames (renderNames user_ids names)) ++ "\n" := by
  refine ⟨by simp [renderNames], ?_, ?_, rfl⟩
  · exact List.mem_map.mpr ⟨uid, hmem, by simp [hn]⟩
  · intro k hk
    simp [renderNames, List.getElem?_map, hk, hn]

/-- Witness for C10 with one uncached voter. -/
theorem summary_unknown_voter_witness :
    ((renderNames [7] []).length = ([7] : List UserId).length ∧
    "未知" ∈ renderNames [7] [] ∧
    (∀ k : Nat, ([7] : List UserId)[k]? = some 7 →
      (renderNames [7] [])[k]? = some "未知") ∧
    renderLine "🏀 打" [7] []
      = "🏀 打" ++ "（" ++ toString ([7] : List UserId).length ++ "人）："
        ++ (if joinNames (renderNames [7] []) = "" then "無"
            else joinNames (renderNames [7] [])) ++ "\n") :=
  summary_unknown_voter "🏀 打" [7] [] 7 rfl (by decide)

/-! ## Vote-recorder lemmas -/

theorem getEntry?_handle_poll_answer (s : BotState) (e : PollAnswerEvent)
    (p : PollId) :
    getEntry? (handle_poll_answer s e).poll_answers p
      = if p = e.poll_id then
          some (handleInner ((getEntry? s.poll_answers e.poll_id).getD []) e)
        else getEntry? s.poll_answers p := by
  by_cases h : p = e.poll_id
  · subst h
    simp [handle_poll_answer, getEntry?_setEntry, ddGet_fst]
  · simp [handle_poll_answer, getEntry?_setEntry, getEntry?_ddGet, h]

theorem getEntry?_map_erase (m : List (Nat × List UserId)) (u : UserId)
    (k : Nat) :
    getEntry? (m.map (fun oe => (oe.1, oe.2.erase u))) k
      = (getEntry? m k).map (fun l => l.erase u) :=
  getEntry?_map_snd m (fun l => l.erase u) k

theorem getEntry?_handleInner_empty (inner : List (Nat × List UserId))
    (e : PollAnswerEvent) (h : e.option_ids = []) (i : Nat) :
    getEntry? (handleInner inner e) i
      = (getEntry? inner i).map (fun l => l.erase e.user_id) := by
  simp [handleInner, h, getEntry?_map_erase]

theorem getEntry?_handleInner_single (inner : List (Nat × List UserId))
    (e : PollAnswerEvent) (k : Nat) (h : e.option_ids = [k]) (i : Nat) :
    getEntry? (handleInner inner e) i
      = if i = k then
          some ((((getEntry? inner k).map (fun l => l.erase e.user_id)).getD [])
            ++ [e.user_id])
        else (getEntry? inner i).map (fun l => l.erase e.user_id) := by
  simp [handleInner, h, List.foldl, getEntry?_setEntry, getEntry?_map_erase]

theorem dedup_optList {s : BotState} (hd : Dedup s) (p : PollId) (i : Nat) :
    (optList s p i).Nodup := by
  unfold optList
  cases hpa : getEntry? s.poll_answers p with
  | none => simp
  | some inner =>
    simp only [Option.getD_some]
    cases hin : getEntry? inner i with
    | none => simp
    | some l =>
      simp only [Option.getD_some]
      exact hd _ (getEntry?_mem hpa) _ (getEntry?_mem hin)

theorem mem_erased_getD {o : Option (List UserId)} {v u : UserId}
    (hnd : (o.getD []).Nodup) :
    (v ∈ (o.map (fun l => l.erase u)).getD []) ↔ v ≠ u ∧ v ∈ o.getD [] := by
  cases o with
  | none => simp
  | some l => simpa using (hnd.mem_erase_iff (b := u))

/-- The one-step effect of the vote recorder on option-list membership: for
the event's own poll and user, membership afterwards is exactly "the event
chose this option"; every other (poll, user) pair is untouched. -/
theorem mem_optList_handle (s : BotState) (e : PollAnswerEvent)
    (hd : Dedup s) (hlen : e.option_ids.length ≤ 1)
    (p : PollId) (u : UserId) (i : Nat) :
    (u ∈ optList (handle_poll_answer s e) p i ↔
      if e.poll_id = p ∧ e.user_id = u then e.option_ids = [i]
      else u ∈ optList s p i) := by
  by_cases hp : e.poll_id = p
  case neg =>
    have hp' : ¬ p = e.poll_id := fun h => hp h.symm
    simp [optList, getEntry?_handle_poll_answer, hp', hp]
  case pos =>
    subst hp
    have hopt : ∀ j, optList (handle_poll_answer s e) e.poll_id j
        = (getEntry? (handleInner ((getEntry? s.poll_answers e.poll_id).getD []) e) j).getD [] := by
      intro j
      simp [optList, getEntry?_handle_poll_answer]
    have hnodup : ∀ j,
        ((getEntry? ((getEntry? s.poll_answers e.poll_id).getD []) j).getD []).Nodup :=
      fun j => dedup_optList hd e.poll_id j
    rcases hoi : e.option_ids with _ | ⟨k, _ | ⟨k', rest⟩⟩
    · rw [hopt i, getEntry?_handleInner_empty _ _ hoi i]
      by_cases hu : e.user_id = u
      · subst hu
        simp only [true_and, if_pos, and_self, hoi]
        rw [mem_erased_getD (hnodup i)]
        simp [optList]
      · simp only [hu, and_false, if_neg, not_false_iff]
        rw [mem_erased_getD (hnodup i)]
        have hu' : u ≠ e.user_id := fun h => hu h.symm
        simp [optList, hu']
    · rw [hopt i, getEntry?_handleInner_single _ _ k hoi i]
      by_cases hik : i = k
      · subst hik
        rw [if_pos rfl]
        simp only [Option.getD_some]
        by_cases hu : e.user_id = u
        · subst hu
          simp [hoi]
        · have hu' : u ≠ e.user_id := fun h => hu h.symm
          rw [List.mem_append]
          rw [mem_erased_getD (hnodup i)]
          simp [optList, hu', hu]
      · rw [if_neg hik]
        rw [mem_erased_getD (hnodup i)]
        by_cases hu : e.user_id = u
        · subst hu
          have hki : ¬ ([k] : List Nat) = [i] := by
            simp only [List.cons.injEq, and_true]
            exact fun h => hik h.symm
          simp [hoi, hki]
        · have hu' : u ≠ e.user_id := fun h => hu h.symm
          simp [optList, hu', hu]
    · exfalso
      rw [hoi] at hlen
      simp at hlen

theorem mem_ddGet [DecidableEq α] {m : List (α × β)} {k : α} {d : β}
    {x : α × β} (h : x ∈ (ddGet m k d).2) : x ∈ m ∨ x = (k, d) := by
  unfold ddGet at h
  cases hm : getEntry? m k with
  | some v =>
    rw [hm] at h
    exact Or.inl h
  | none =>
    rw [hm] at h
    have h' : x ∈ m ++ [(k, d)] := h
    rcases List.mem_append.mp h' with h1 | h1
    · exact Or.inl h1
    · right
      simpa using h1

theorem dedup_handleInner (inner : List (Nat × List UserId))
    (e : PollAnswerEvent) (hd : ∀ oe ∈ inner, List.Nodup oe.2)
    (hlen : e.option_ids.length ≤ 1) :
    ∀ oe ∈ handleInner inner e, List.Nodup oe.2 := by
  rcases hoi : e.option_ids with _ | ⟨k, _ | ⟨k', rest⟩⟩
  · intro oe hoe
    simp only [handleInner, hoi, List.foldl] at hoe
    rcases List.mem_map.mp hoe with ⟨oe0, hoe0, rfl⟩
    exact (hd oe0 hoe0).erase _
  · intro oe hoe
    simp only [handleInner, hoi, List.foldl] at hoe
    rcases mem_setEntry hoe with h | h
    · rw [h]
      rw [List.nodup_append]
      refine ⟨?_, List.nodup_singleton _, ?_⟩
      · rw [getEntry?_map_erase]
        cases hin : getEntry? inner k with
        | none => simp
        | some l =>
          simpa using ((hd (k, l) (getEntry?_mem hin)).erase e.user_id)
      · rw [getEntry?_map_erase]
        intro a ha hb
        have hau : a = e.user_id := by simpa using hb
        subst hau
        cases hin : getEntry? inner k with
        | none => rw [hin] at ha; simp at ha
        | some l =>
          rw [hin] at ha
          exact (hd (k, l) (getEntry?_mem hin)).not_mem_erase (by simpa using ha)
    · rcases List.mem_map.mp h with ⟨oe0, hoe0, rfl⟩
      exact (hd oe0 hoe0).erase _
  · rw [hoi] at hlen
    simp at hlen

/-- The vote recorder preserves the no-duplicate-voter invariant for events
with at most one chosen option. -/
theorem dedup_handle (s : BotState) (e : PollAnswerEvent)
    (hd : Dedup s) (hlen : e.option_ids.length ≤ 1) :
    Dedup (handle_poll_answer s e) := by
  intro pe hpe
  simp only [handle_poll_answer] at hpe
  rcases mem_setEntry hpe with h | h
  · have hin : ∀ oe ∈ (ddGet s.poll_answers e.poll_id
        ([] : List (Nat × List UserId))).1, List.Nodup oe.2 := by
      rw [ddGet_fst]
      cases hpa : getEntry? s.poll_answers e.poll_id with
      | none => simp
      | some inner =>
        simpa using hd _ (getEntry?_mem hpa)
    rw [h]
    exact dedup_handleInner _ e hin hlen
  · rcases mem_ddGet h with h1 | h1
    · exact hd pe h1
    · rw [h1]
      intro oe hoe
      simp at hoe

/-- Running a sequence of well-formed events: a user belongs to an option
list exactly as dictated by their most recent event, falling back to the
starting state's lists when the user never voted in that poll. -/
theorem mem_optList_runEvents (es : List PollAnswerEvent) :
    ∀ s : BotState, Dedup s → (∀ e ∈ es, e.option_ids.length ≤ 1) →
    ∀ (p : PollId) (u : UserId) (i : Nat),
      (u ∈ optList (runEvents s es) p i ↔
        (match lastChoice es p u with
         | some c => c = [i]
         | none => u ∈ optList s p i)) := by
  induction es with
  | nil =>
    intro s hd hlen p u i
    simp [runEvents, lastChoice]
  | cons e es ih =>
    intro s hd hlen p u i
    have hd' := dedup_handle s e hd (hlen e (List.mem_cons_self e es))
    have hlen' : ∀ e' ∈ es, e'.option_ids.length ≤ 1 :=
      fun e' he' => hlen e' (List.mem_cons_of_mem e he')
    have hih := ih (handle_poll_answer s e) hd' hlen' p u i
    have hrun : runEvents s (e :: es) = runEvents (handle_poll_answer s e) es := rfl
    rw [hrun]
    cases hlc : lastChoice es p u with
    | some c =>
      have hl : lastChoice (e :: es) p u = some c := by
        simp [lastChoice, hlc]
      rw [hl]
      simpa [hlc] using hih
    | none =>
      have hstep := mem_optList_handle s e hd (hlen e (List.mem_cons_self e es)) p u i
      simp only [hlc] at hih
      rw [hih, hstep]
      have hl : lastChoice (e :: es) p u
          = if e.poll_id = p ∧ e.user_id = u then some e.option_ids else none := by
        simp [lastChoice, hlc]
      rw [hl]
      by_cases hc : e.poll_id = p ∧ e.user_id = u
      · simp [hc]
      · simp [hc]

/-- C1: processing any sequence of vote events in which each event carries
at most one chosen option, from the initial state, a user belongs to an
option list of a poll exactly when their most recent event for that poll
chose that option (last-vote-wins); hence each user appears in at most one
option list per poll, and in none after an event with no choice or when
they never voted. -/
theorem last_vote_wins (es : List PollAnswerEvent)
    (h : ∀ e ∈ es, e.option_ids.length ≤ 1) (p : PollId) (u : UserId) :
    (∀ i, u ∈ optList (runEvents initState es) p i ↔
        lastChoice es p u = some [i]) ∧
    (∀ i j, u ∈ optList (runEvents initState es) p i →
        u ∈ optList (runEvents initState es) p j → i = j) := by
  have hd0 : Dedup initState := by
    intro pe hpe
    simp [initState] at hpe
  have key : ∀ i, u ∈ optList (runEvents initState es) p i ↔
      lastChoice es p u = some [i] := by
    intro i
    have hrun := mem_optList_runEvents es initState hd0 h p u i
    cases hlc : lastChoice es p u with
    | none =>
      simp only [hlc] at hrun
      rw [hrun]
      simp [optList, initState]
    | some c =>
      simp only [hlc] at hrun
      rw [hrun]
      simp
  refine ⟨key, ?_⟩
  intro i j hi hj
  have h1 := (key i).mp hi
  have h2 := (key j).mp hj
  rw [h1] at h2
  injection h2 with h3
  simpa using h3

/-- Witness for C1: user 1 votes option 0, then changes to option 1. -/
theorem last_vote_wins_witness :
    (∀ i, 1 ∈ optList (runEvents initState
          [⟨"p1", 1, some "alice", "Alice", [0]⟩,
           ⟨"p1", 1, some "alice", "Alice", [1]⟩]) "p1" i ↔
        lastChoice [⟨"p1", 1, some "alice", "Alice", [0]⟩,
           ⟨"p1", 1, some "alice", "Alice", [1]⟩] "p1" 1 = some [i]) ∧
    (∀ i j, 1 ∈ optList (runEvents initState
          [⟨"p1", 1, some "alice", "Alice", [0]⟩,
           ⟨"p1", 1, some "alice", "Alice", [1]⟩]) "p1" i →
        1 ∈ optList (runEvents initState
          [⟨"p1", 1, some "alice", "Alice", [0]⟩,
           ⟨"p1", 1, some "alice", "Alice", [1]⟩]) "p1" j → i = j) :=
  last_vote_wins _ (by decide) "p1" 1

/-- C9: a vote event with an empty chosen set (a retraction) removes the
user from every option list of that poll and appends them to no list, while
the display-name cache entry is still refreshed. -/
theorem handle_poll_answer_retract (s : BotState) (e : PollAnswerEvent)
    (hd : Dedup s) (h : e.option_ids = []) :
    (∀ i, e.user_id ∉ optList (handle_poll_answer s e) e.poll_id i) ∧
    getEntry? (handle_poll_answer s e).user_display_names e.user_id
      = some (displayName e) := by
  constructor
  · intro i
    rw [mem_optList_handle s e hd (by simp [h]) e.poll_id e.user_id i]
    simp [h]
  · simp [handle_poll_answer, getEntry?_setEntry]

/-- Witness for C9: user 7, previously under option 0, retracts. -/
theorem handle_poll_answer_retract_witness :
    (∀ i, (7 : UserId) ∉ optList
        (handle_poll_answer oneVoteState ⟨"p1", 7, none, "Ann", []⟩) "p1" i) ∧
    getEntry? (handle_poll_answer oneVoteState
        ⟨"p1", 7, none, "Ann", []⟩).user_display_names 7
      = some (displayName ⟨"p1", 7, none, "Ann", []⟩) :=
  handle_poll_answer_retract oneVoteState ⟨"p1", 7, none, "Ann", []⟩
    (by decide) rfl

end WannaPlay
